import Mathlib

/-!
Shallow embedding of `scope_gl.h`, a single-header C library of scoped
push/pop macros over the OpenGL state machine.  Each `scope_gl...` macro
expands to a C `for` loop of the shape

    for (int UQ(v) = (begin, 0); (UQ(v) == 0); (UQ(v) += 1), end)

so `begin` runs before the user block, the block runs once (the loop
counter makes the condition fail after one iteration), and `end` runs in
the increment clause.  The RESTORE-mode variants additionally capture the
old slot value in the initializer via a `glGet*` query and re-apply it in
the increment clause; the RESET-mode (`_unset_`) variants apply a fixed
value instead.  We model the OpenGL context as a record of slots, each GL
call as a state transformer that also appends an event to a trace, and
the user block as an arbitrary effect plus one of the C exit kinds
(fall-through, `continue`, `break`, `return`, or a propagating error).
-/

/-! ## OpenGL enumerant constants (values from the standard GL headers) -/

def GL_TEXTURE_1D : Nat := 0x0DE0
def GL_TEXTURE_2D : Nat := 0x0DE1
def GL_TEXTURE_3D : Nat := 0x806F
def GL_TEXTURE_1D_ARRAY : Nat := 0x8C18
def GL_TEXTURE_2D_ARRAY : Nat := 0x8C1A
def GL_TEXTURE_RECTANGLE : Nat := 0x84F5
def GL_TEXTURE_CUBE_MAP : Nat := 0x8513
def GL_TEXTURE_CUBE_MAP_ARRAY : Nat := 0x9009
def GL_TEXTURE_BUFFER : Nat := 0x8C2A
def GL_TEXTURE_2D_MULTISAMPLE : Nat := 0x9100
def GL_TEXTURE_2D_MULTISAMPLE_ARRAY : Nat := 0x9102

def GL_TEXTURE_BINDING_1D : Nat := 0x8068
def GL_TEXTURE_BINDING_2D : Nat := 0x8069
def GL_TEXTURE_BINDING_3D : Nat := 0x806A
def GL_TEXTURE_BINDING_1D_ARRAY : Nat := 0x8C1C
def GL_TEXTURE_BINDING_2D_ARRAY : Nat := 0x8C1D
def GL_TEXTURE_BINDING_RECTANGLE : Nat := 0x84F6
def GL_TEXTURE_BINDING_CUBE_MAP : Nat := 0x8514
def GL_TEXTURE_BINDING_CUBE_MAP_ARRAY : Nat := 0x900A
def GL_TEXTURE_BINDING_BUFFER : Nat := 0x8C2C
def GL_TEXTURE_BINDING_2D_MULTISAMPLE : Nat := 0x9104
def GL_TEXTURE_BINDING_2D_MULTISAMPLE_ARRAY : Nat := 0x9105

def GL_CURRENT_PROGRAM : Nat := 0x8B8D
def GL_VIEWPORT : Nat := 0x0BA2
def GL_BLEND_SRC : Nat := 0x0BE1
def GL_BLEND_DST : Nat := 0x0BE0
def GL_BLEND : Nat := 0x0BE2
def GL_SHADER_STORAGE_BUFFER : Nat := 0x90D2
def GL_SHADER_STORAGE_BUFFER_BINDING : Nat := 0x90D3
def GL_FRAMEBUFFER : Nat := 0x8D40
def GL_COLOR_ATTACHMENT0 : Nat := 0x8CE0

/-- Embedding of the `switch` in `_scope_gl_map_texture_target_to_binding`
(scope_gl.h lines 251-266): maps a texture target to the binding-point
enum used to query the current binding for that target; unknown targets
fall into the `default` case and yield 0. -/
def _scope_gl_map_texture_target_to_binding (target : Nat) : Nat :=
  if target = GL_TEXTURE_1D then GL_TEXTURE_BINDING_1D
  else if target = GL_TEXTURE_2D then GL_TEXTURE_BINDING_2D
  else if target = GL_TEXTURE_3D then GL_TEXTURE_BINDING_3D
  else if target = GL_TEXTURE_1D_ARRAY then GL_TEXTURE_BINDING_1D_ARRAY
  else if target = GL_TEXTURE_2D_ARRAY then GL_TEXTURE_BINDING_2D_ARRAY
  else if target = GL_TEXTURE_RECTANGLE then GL_TEXTURE_BINDING_RECTANGLE
  else if target = GL_TEXTURE_CUBE_MAP then GL_TEXTURE_BINDING_CUBE_MAP
  else if target = GL_TEXTURE_CUBE_MAP_ARRAY then GL_TEXTURE_BINDING_CUBE_MAP_ARRAY
  else if target = GL_TEXTURE_BUFFER then GL_TEXTURE_BINDING_BUFFER
  else if target = GL_TEXTURE_2D_MULTISAMPLE then GL_TEXTURE_BINDING_2D_MULTISAMPLE
  else if target = GL_TEXTURE_2D_MULTISAMPLE_ARRAY then GL_TEXTURE_BINDING_2D_MULTISAMPLE_ARRAY
  else 0

/-! ## The GL context as a record of state slots

GLfloat-valued state (uniform values) carries no arithmetic in this
library — values are only copied — so floats are modelled by `Int`. -/

/-- Model of the ambient OpenGL context: one field per state slot family
touched by the macros embedded here. -/
structure GLCtx where
  prog : Nat
  tex : Nat → Nat
  buf : Nat → Nat
  idxBuf : Nat × Nat → Nat
  cap : Nat → Bool
  att : Nat × Nat → Nat × Nat × Nat
  viewport : Int × Int × Int × Int
  blendSrc : Nat
  blendDst : Nat
  uniF : Nat → Int → Int
  uniM : Nat → Int → List Int
  loc : Nat → String → Int

/-- One observable call into the GL context (query or mutation). -/
inductive GLEvent where
  | getInteger (pname : Nat)
  | getBoolean (pname : Nat)
  | useProgram (id : Nat)
  | bindTexture (target texUnit : Nat)
  | enable (e : Nat)
  | disable (e : Nat)
  | fbTexture2D (target attachment textarget texUnit level : Nat)
  | viewportSet (x y w h : Int)
  | blendFunc (src dst : Nat)
  | bindBuffer (target buffer : Nat)
  | bindBufferBase (target index buffer : Nat)
  | getUniformLocation (p : Nat) (name : String)
  | getUniformF (p : Nat) (location : Int)
  | getUniformM (p : Nat) (location : Int)
  | uniform1f (location : Int) (v : Int)
  | uniformMat4 (location : Int) (m : List Int)
  deriving DecidableEq

/-- A GL call: transforms the context and emits events. -/
abbrev Act := GLCtx → GLCtx × List GLEvent

/-- Sequencing of two GL calls (C comma operator). -/
def Act.seq (a b : Act) : Act := fun c =>
  ((b (a c).1).1, (a c).2 ++ (b (a c).1).2)

/-! ### Primitive GL calls, each faithful to the GL specification of the
corresponding entry point. -/

def glUseProgramAct (id : Nat) : Act := fun c =>
  ({ c with prog := id }, [GLEvent.useProgram id])

/-- Model of glBindTexture: binds a texture to the slot addressed by the
target (readable through the target's binding-point enum). -/
def glBindTextureAct (target texture : Nat) : Act := fun c =>
  ({ c with tex := fun b =>
      if b = _scope_gl_map_texture_target_to_binding target then texture
      else c.tex b },
   [GLEvent.bindTexture target texture])

def glEnableAct (e : Nat) : Act := fun c =>
  ({ c with cap := fun x => if x = e then true else c.cap x },
   [GLEvent.enable e])

def glDisableAct (e : Nat) : Act := fun c =>
  ({ c with cap := fun x => if x = e then false else c.cap x },
   [GLEvent.disable e])

/-- Model of glFramebufferTexture2D: the attachment slot keyed by
(framebuffer target, attachment point) holds (textarget, texture, level);
an attachment point holds at most one resource, so attaching overwrites. -/
def glFramebufferTexture2DAct (target attachment textarget texture level : Nat) : Act := fun c =>
  ({ c with att := fun p =>
      if p = (target, attachment) then (textarget, texture, level)
      else c.att p },
   [GLEvent.fbTexture2D target attachment textarget texture level])

def glViewportAct (x y w h : Int) : Act := fun c =>
  ({ c with viewport := (x, y, w, h) }, [GLEvent.viewportSet x y w h])

def glBlendFuncAct (s d : Nat) : Act := fun c =>
  ({ c with blendSrc := s, blendDst := d }, [GLEvent.blendFunc s d])

def glBindBufferAct (target buffer : Nat) : Act := fun c =>
  ({ c with buf := fun t => if t = target then buffer else c.buf t },
   [GLEvent.bindBuffer target buffer])

/-- Model of glBindBufferBase: binds the buffer to the indexed binding
point and, per the GL specification, also to the generic target binding. -/
def glBindBufferBaseAct (target index buffer : Nat) : Act := fun c =>
  ({ c with
      idxBuf := fun p => if p = (target, index) then buffer else c.idxBuf p,
      buf := fun t => if t = target then buffer else c.buf t },
   [GLEvent.bindBufferBase target index buffer])

/-- Model of glUniform1f: writes the scalar uniform of the program that is
current at call time, at the given location. -/
def glUniform1fAct (location : Int) (v : Int) : Act := fun c =>
  ({ c with uniF := fun p lo =>
      if p = c.prog ∧ lo = location then v else c.uniF p lo },
   [GLEvent.uniform1f location v])

/-- Model of glUniformMatrix4fv (count 1, no transpose): writes the mat4
uniform of the current program at the given location. -/
def glUniformMatrix4fvAct (location : Int) (m : List Int) : Act := fun c =>
  ({ c with uniM := fun p lo =>
      if p = c.prog ∧ lo = location then m else c.uniM p lo },
   [GLEvent.uniformMat4 location m])

/-! ## The scope primitive -/

/-- The ways a C statement block can terminate inside the macro's `for`
loop: fall through, `continue` (binds to the macro's own loop), `break`
(likewise), `return` from the enclosing function, or a propagating error
(e.g. a C++ exception unwinding through). -/
inductive COutcome where
  | normal
  | cont
  | brk
  | ret
  | err
  deriving DecidableEq

/-- The user block placed after a scope macro: an arbitrary effect on the
context, an arbitrary list of emitted events, and an exit kind, all as
functions of the context in which the block starts. -/
structure Body where
  eff : GLCtx → GLCtx
  log : GLCtx → List GLEvent
  out : GLCtx → COutcome

/-- Result of executing one scope macro invocation: final context, the
events emitted (in order), and how control leaves the whole construct. -/
structure ScopeResult where
  ctx : GLCtx
  log : List GLEvent
  out : COutcome

/-- Execution of the C `for`-loop pattern shared by every macro in the
header: `enter` is the initializer (queries capture a value of type α and
the new state is applied), the body runs once, and `leave` is the
increment clause.  C semantics of the exit kinds: fall-through and
`continue` reach the increment clause, so `leave` runs and the loop then
terminates normally; `break` leaves the loop without running the
increment clause; `return` and a propagating error leave the enclosing
function, also skipping the increment clause. -/
def runScope {α : Type} (enter : GLCtx → α × GLCtx × List GLEvent)
    (leave : α → Act) (b : Body) (c : GLCtx) : ScopeResult :=
  let a := (enter c).1
  let c1 := (enter c).2.1
  let e1 := (enter c).2.2
  let c2 := b.eff c1
  let e2 := b.log c1
  match b.out c1 with
  | COutcome.normal => ⟨(leave a c2).1, e1 ++ e2 ++ (leave a c2).2, COutcome.normal⟩
  | COutcome.cont => ⟨(leave a c2).1, e1 ++ e2 ++ (leave a c2).2, COutcome.normal⟩
  | COutcome.brk => ⟨c2, e1 ++ e2, COutcome.normal⟩
  | COutcome.ret => ⟨c2, e1 ++ e2, COutcome.ret⟩
  | COutcome.err => ⟨c2, e1 ++ e2, COutcome.err⟩

/-- Embedding of `scope_begin_end_var(begin, end, var)` (scope_gl.h lines
248-249): `for (int UQ(var) = (begin, 0); (UQ(var) == 0); (UQ(var) += 1), end)`.
No value is captured. -/
def scope_begin_end_var (bgn fin : Act) (b : Body) : GLCtx → ScopeResult :=
  runScope (fun c => (PUnit.unit, bgn c)) (fun _ => fin) b

/-- Reuse of one whole scope invocation as the body of an enclosing scope
(the nested-macro usage pattern).  A consumed `break`/`continue` has
already become a normal outcome inside the inner scope. -/
def Body.ofRun (f : GLCtx → ScopeResult) : Body :=
  { eff := fun c => (f c).ctx, log := fun c => (f c).log, out := fun c => (f c).out }

/-! ## The state-slot binding macros (scope_gl.h lines 107-241) -/

/-- Embedding of `_restore_glUseProgram(id)` (lines 107-109): initializer
queries GL_CURRENT_PROGRAM and calls glUseProgram(id); increment clause
re-applies the captured program. -/
def _restore_glUseProgram (id : Nat) (b : Body) : GLCtx → ScopeResult :=
  runScope
    (fun c =>
      (c.prog, ((glUseProgramAct id c).1,
        GLEvent.getInteger GL_CURRENT_PROGRAM :: (glUseProgramAct id c).2)))
    (fun old => glUseProgramAct old) b

/-- Embedding of `_unset_glUseProgram(id)` (line 110). -/
def _unset_glUseProgram (id : Nat) (b : Body) : GLCtx → ScopeResult :=
  scope_begin_end_var (glUseProgramAct id) (glUseProgramAct 0) b

/-- Embedding of `_restore_glBindTexture(target,texture)` (lines 117-119):
the query pname comes from the target-to-binding lookup. -/
def _restore_glBindTexture (target texture : Nat) (b : Body) : GLCtx → ScopeResult :=
  runScope
    (fun c =>
      (c.tex (_scope_gl_map_texture_target_to_binding target),
       ((glBindTextureAct target texture c).1,
        GLEvent.getInteger (_scope_gl_map_texture_target_to_binding target) ::
          (glBindTextureAct target texture c).2)))
    (fun old => glBindTextureAct target old) b

/-- Embedding of `_unset_glBindTexture(target,texture)` (line 120). -/
def _unset_glBindTexture (target texture : Nat) (b : Body) : GLCtx → ScopeResult :=
  scope_begin_end_var (glBindTextureAct target texture) (glBindTextureAct target 0) b

/-- Embedding of `_restore_glEnable(enumval)` (lines 137-139): queries the
flag via glGetBooleanv, enables it, and on exit re-enables or re-disables
according to the captured boolean. -/
def _restore_glEnable (e : Nat) (b : Body) : GLCtx → ScopeResult :=
  runScope
    (fun c =>
      (c.cap e, ((glEnableAct e c).1,
        GLEvent.getBoolean e :: (glEnableAct e c).2)))
    (fun old => if old then glEnableAct e else glDisableAct e) b

/-- Embedding of `_unset_glEnable(enumval)` (line 140). -/
def _unset_glEnable (e : Nat) (b : Body) : GLCtx → ScopeResult :=
  scope_begin_end_var (glEnableAct e) (glDisableAct e) b

/-- Embedding of `_restore_glDisable(enumval)` (lines 142-144). -/
def _restore_glDisable (e : Nat) (b : Body) : GLCtx → ScopeResult :=
  runScope
    (fun c =>
      (c.cap e, ((glDisableAct e c).1,
        GLEvent.getBoolean e :: (glDisableAct e c).2)))
    (fun old => if old then glEnableAct e else glDisableAct e) b

/-- Embedding of `_unset_glDisable(enumval)` (line 145): note the exit
action is glEnable — it forces the flag on, not off. -/
def _unset_glDisable (e : Nat) (b : Body) : GLCtx → ScopeResult :=
  scope_begin_end_var (glDisableAct e) (glEnableAct e) b

/-- Embedding of `_restore_glFramebufferTexture(...)` (lines 162-164):
despite the `_restore_` name it performs no query; the exit action
attaches texture 0 at level 0 (the header documents that the previous
attachment is not restored). -/
def _restore_glFramebufferTexture (target attachment textarget texture level : Nat)
    (b : Body) : GLCtx → ScopeResult :=
  scope_begin_end_var
    (glFramebufferTexture2DAct target attachment textarget texture level)
    (glFramebufferTexture2DAct target attachment textarget 0 0) b

/-- Embedding of `_unset_glFramebufferTexture(...)` (lines 165-167). -/
def _unset_glFramebufferTexture (target attachment textarget texture level : Nat)
    (b : Body) : GLCtx → ScopeResult :=
  scope_begin_end_var
    (glFramebufferTexture2DAct target attachment textarget texture level)
    (glFramebufferTexture2DAct target attachment textarget 0 0) b

/-- Embedding of `_restore_glViewport(x,y,w,h)` (lines 187-189): one
glGetIntegerv(GL_VIEWPORT) call reads all four components at once; the
exit action re-applies the captured quadruple. -/
def _restore_glViewport (x y w h : Int) (b : Body) : GLCtx → ScopeResult :=
  runScope
    (fun c =>
      (c.viewport, ((glViewportAct x y w h c).1,
        GLEvent.getInteger GL_VIEWPORT :: (glViewportAct x y w h c).2)))
    (fun old => glViewportAct old.1 old.2.1 old.2.2.1 old.2.2.2) b

/-- Embedding of `_unset_glViewport(x,y,w,h)` (line 190). -/
def _unset_glViewport (x y w h : Int) (b : Body) : GLCtx → ScopeResult :=
  scope_begin_end_var (glViewportAct x y w h) (glViewportAct 0 0 0 0) b

/-- Embedding of `_restore_glBlendFunc(src,dst)` (lines 197-199): two
queries capture the source and destination factors; the exit action
re-applies both. -/
def _restore_glBlendFunc (s d : Nat) (b : Body) : GLCtx → ScopeResult :=
  runScope
    (fun c =>
      ((c.blendSrc, c.blendDst), ((glBlendFuncAct s d c).1,
        GLEvent.getInteger GL_BLEND_SRC :: GLEvent.getInteger GL_BLEND_DST ::
          (glBlendFuncAct s d c).2)))
    (fun old => glBlendFuncAct old.1 old.2) b

/-- Embedding of `_restore_glBindSSBO(ssbo, binding)` (lines 220-222):
queries only GL_SHADER_STORAGE_BUFFER_BINDING (the generic binding), then
binds the new buffer generically and at the indexed point; the exit
action writes the captured generic value to the indexed point and to the
generic target, in that order. -/
def _restore_glBindSSBO (ssbo binding : Nat) (b : Body) : GLCtx → ScopeResult :=
  runScope
    (fun c =>
      (c.buf GL_SHADER_STORAGE_BUFFER,
       (((Act.seq (glBindBufferAct GL_SHADER_STORAGE_BUFFER ssbo)
            (glBindBufferBaseAct GL_SHADER_STORAGE_BUFFER binding ssbo)) c).1,
        GLEvent.getInteger GL_SHADER_STORAGE_BUFFER_BINDING ::
          ((Act.seq (glBindBufferAct GL_SHADER_STORAGE_BUFFER ssbo)
              (glBindBufferBaseAct GL_SHADER_STORAGE_BUFFER binding ssbo)) c).2)))
    (fun old =>
      Act.seq (glBindBufferBaseAct GL_SHADER_STORAGE_BUFFER binding old)
        (glBindBufferAct GL_SHADER_STORAGE_BUFFER old)) b

/-- Embedding of `scope_glUniformfv(val,name)` (lines 238-241): the outer
loop queries GL_CURRENT_PROGRAM once; the inner loop looks the location
up by name against that program, reads the old value back, looks the
location up again and writes the new value; the increment clause looks
the location up a third time (against the captured program) and writes
the old value back through glUniform1f, which targets the program current
at that moment. -/
def scope_glUniformfv (val : Int) (name : String) (b : Body) : GLCtx → ScopeResult :=
  runScope
    (fun c =>
      let p := c.prog
      let l1 := c.loc p name
      let old := c.uniF p l1
      let l2 := c.loc p name
      ((p, old), ((glUniform1fAct l2 val c).1,
        GLEvent.getInteger GL_CURRENT_PROGRAM ::
          GLEvent.getUniformLocation p name ::
            GLEvent.getUniformF p l1 ::
              GLEvent.getUniformLocation p name :: (glUniform1fAct l2 val c).2)))
    (fun po => fun c2 =>
      let l3 := c2.loc po.1 name
      ((glUniform1fAct l3 po.2 c2).1,
       GLEvent.getUniformLocation po.1 name :: (glUniform1fAct l3 po.2 c2).2)) b

/-- Embedding of `scope_glUniformMatrix4fv(matrix,name)` (lines 234-237),
the mat4 analogue of `scope_glUniformfv`. -/
def scope_glUniformMatrix4fv (matrix : List Int) (name : String) (b : Body) :
    GLCtx → ScopeResult :=
  runScope
    (fun c =>
      let p := c.prog
      let l1 := c.loc p name
      let old := c.uniM p l1
      let l2 := c.loc p name
      ((p, old), ((glUniformMatrix4fvAct l2 matrix c).1,
        GLEvent.getInteger GL_CURRENT_PROGRAM ::
          GLEvent.getUniformLocation p name ::
            GLEvent.getUniformM p l1 ::
              GLEvent.getUniformLocation p name ::
                (glUniformMatrix4fvAct l2 matrix c).2)))
    (fun po => fun c2 =>
      let l3 := c2.loc po.1 name
      ((glUniformMatrix4fvAct l3 po.2 c2).1,
       GLEvent.getUniformLocation po.1 name ::
         (glUniformMatrix4fvAct l3 po.2 c2).2)) b

/-! ## Concrete contexts and bodies used by witnesses -/

/-- A context with every slot at its zero/neutral value. -/
def baseCtx : GLCtx :=
  { prog := 0, tex := fun _ => 0, buf := fun _ => 0, idxBuf := fun _ => 0,
    cap := fun _ => false, att := fun _ => (0, 0, 0), viewport := (0, 0, 0, 0),
    blendSrc := 0, blendDst := 0, uniF := fun _ _ => 0, uniM := fun _ _ => [],
    loc := fun _ _ => 0 }

/-- The empty block, falling through normally. -/
def emptyBody : Body :=
  { eff := id, log := fun _ => [], out := fun _ => COutcome.normal }

/-- A block that immediately returns from the enclosing function. -/
def retBody : Body :=
  { eff := id, log := fun _ => [], out := fun _ => COutcome.ret }

/-- A block whose only statement is `break`. -/
def brkBody : Body :=
  { eff := id, log := fun _ => [], out := fun _ => COutcome.brk }

/-- A block that performs one GL call and falls through. -/
def actBody (a : Act) : Body :=
  { eff := fun c => (a c).1, log := fun c => (a c).2, out := fun _ => COutcome.normal }

/-! ## The unique-name generator

`UQ(name)` (scope_gl.h lines 244-246) token-pastes the transient's base
name with the preprocessor's `__LINE__`, the decimal spelling of the
source line number.  We model the pasted identifier as the base string
followed by the decimal digit characters of the line. -/

/-- Digit extraction worker, structurally recursive on a fuel argument so
that concrete invocations compute.  `decDigitsGo f n` produces the
little-endian decimal digits of `n` whenever `n ≤ f`. -/
def decDigitsGo : Nat → Nat → List Nat
  | _, 0 => []
  | 0, _ + 1 => []
  | f + 1, n + 1 => ((n + 1) % 10) :: decDigitsGo f ((n + 1) / 10)

/-- Little-endian decimal digits of a natural number (empty for 0), the
digit stream underlying the preprocessor's decimal spelling of __LINE__. -/
def decDigits (n : Nat) : List Nat := decDigitsGo n n

/-- Value of a little-endian decimal digit list. -/
def ofDecDigits : List Nat → Nat
  | [] => 0
  | d :: ds => d + 10 * ofDecDigits ds

theorem ofDecDigits_decDigitsGo : ∀ f n, n ≤ f → ofDecDigits (decDigitsGo f n) = n := by
  intro f
  induction f with
  | zero =>
    intro n hn
    interval_cases n
    rfl
  | succ f ih =>
    intro n hn
    match n with
    | 0 => rfl
    | Nat.succ m =>
      have hdiv : (m + 1) / 10 ≤ f := by
        have := Nat.div_lt_self (Nat.succ_pos m) (show 1 < 10 by norm_num)
        omega
      rw [decDigitsGo, ofDecDigits, ih _ hdiv]
      omega

theorem ofDecDigits_decDigits (n : Nat) : ofDecDigits (decDigits n) = n :=
  ofDecDigits_decDigitsGo n n le_rfl

theorem decDigits_inj {m n : Nat} (h : decDigits m = decDigits n) : m = n := by
  have := congrArg ofDecDigits h
  rwa [ofDecDigits_decDigits, ofDecDigits_decDigits] at this

theorem decDigitsGo_lt_ten : ∀ f n, ∀ d ∈ decDigitsGo f n, d < 10 := by
  intro f
  induction f with
  | zero =>
    intro n d hd
    match n with
    | 0 => simp [decDigitsGo] at hd
    | Nat.succ m => simp [decDigitsGo] at hd
  | succ f ih =>
    intro n d hd
    match n with
    | 0 => simp [decDigitsGo] at hd
    | Nat.succ m =>
      rw [decDigitsGo] at hd
      rcases List.mem_cons.mp hd with h | h
      · subst h; exact Nat.mod_lt _ (by norm_num)
      · exact ih _ d h

theorem decDigits_lt_ten {n : Nat} : ∀ d ∈ decDigits n, d < 10 :=
  decDigitsGo_lt_ten n n

theorem digitChar_inj_lt_ten {a b : Nat} (ha : a < 10) (hb : b < 10)
    (h : Nat.digitChar a = Nat.digitChar b) : a = b := by
  have hfin : ∀ x : Fin 10, ∀ y : Fin 10,
      Nat.digitChar x.val = Nat.digitChar y.val → x = y := by decide
  exact congrArg Fin.val (hfin ⟨a, ha⟩ ⟨b, hb⟩ h)

theorem map_digitChar_inj : ∀ {xs ys : List Nat}, (∀ x ∈ xs, x < 10) →
    (∀ y ∈ ys, y < 10) → xs.map Nat.digitChar = ys.map Nat.digitChar → xs = ys
  | [], [], _, _, _ => rfl
  | [], _ :: _, _, _, h => by simp at h
  | _ :: _, [], _, _, h => by simp at h
  | x :: xs, y :: ys, hx, hy, h => by
    rw [List.map_cons, List.map_cons] at h
    have h1 := digitChar_inj_lt_ten (hx x (List.mem_cons_self x xs))
      (hy y (List.mem_cons_self y ys)) (List.head_eq_of_cons_eq h)
    have h2 := map_digitChar_inj (fun z hz => hx z (List.mem_cons_of_mem x hz))
      (fun z hz => hy z (List.mem_cons_of_mem y hz)) (List.tail_eq_of_cons_eq h)
    rw [h1, h2]

/-- Characters of the decimal spelling of a line number (big-endian). -/
def lineChars (line : Nat) : List Char :=
  ((decDigits line).reverse).map Nat.digitChar

theorem lineChars_inj {l1 l2 : Nat} (h : lineChars l1 = lineChars l2) : l1 = l2 := by
  unfold lineChars at h
  have hrev := map_digitChar_inj
    (fun d hd => decDigits_lt_ten d (List.mem_reverse.mp hd))
    (fun d hd => decDigits_lt_ten d (List.mem_reverse.mp hd)) h
  exact decDigits_inj (List.reverse_injective hrev)

/-- Embedding of `UQ(name)` = `CONCAT(name, __LINE__)` (scope_gl.h lines
244-246): the transient identifier produced for a scope-local variable
with base name `base` on source line `line`. -/
def UQ (base : String) (line : Nat) : String :=
  base ++ String.mk (lineChars line)

/-! ## Claim C1: exit-on-every-path for the scope primitive -/

/-- C1, counterexample.  The claim states the exit action executes exactly
once after the body on every exit path, including early return and break.
In the C `for`-loop expansion the exit action lives in the loop's
increment clause, which a `return` or a `break` in the body skips.
Concretely: with active program 3, `_unset_glUseProgram(9)` around a body
that returns (or breaks) emits only the glUseProgram(9) entry call — no
glUseProgram(0) exit call — and leaves program 9 active. -/
theorem scope_exit_skipped_on_return_and_break :
    (_unset_glUseProgram 9 retBody { baseCtx with prog := 3 }).log = [GLEvent.useProgram 9]
    ∧ (_unset_glUseProgram 9 retBody { baseCtx with prog := 3 }).ctx.prog = 9
    ∧ (_unset_glUseProgram 9 retBody { baseCtx with prog := 3 }).out = COutcome.ret
    ∧ (_unset_glUseProgram 9 brkBody { baseCtx with prog := 3 }).log = [GLEvent.useProgram 9]
    ∧ (_unset_glUseProgram 9 brkBody { baseCtx with prog := 3 }).ctx.prog = 9 :=
  ⟨rfl, rfl, rfl, rfl, rfl⟩

/-- C1, amended.  For every scoped-state macro built on
`scope_begin_end_var`, one invocation executes the enter action before the
body, executes the body exactly once, and executes the exit action exactly
once after the body — when the body falls through normally or exits via
`continue` (which the macro's own loop captures).  On a `break`, an early
`return`, or a propagating error, the exit action does not run (see the
counterexample). -/
theorem scope_exit_once_on_normal_or_continue (bgn fin : Act) (b : Body) (c : GLCtx)
    (h : b.out ((bgn c).1) = COutcome.normal ∨ b.out ((bgn c).1) = COutcome.cont) :
    (scope_begin_end_var bgn fin b c).log
      = (bgn c).2 ++ b.log ((bgn c).1) ++ (fin (b.eff ((bgn c).1))).2
    ∧ (scope_begin_end_var bgn fin b c).ctx = (fin (b.eff ((bgn c).1))).1
    ∧ (scope_begin_end_var bgn fin b c).out = COutcome.normal := by
  unfold scope_begin_end_var runScope
  rcases h with h | h <;> simp [h]

/-- C1, witness for the amended theorem at a concrete input. -/
theorem scope_exit_once_on_normal_or_continue_witness :
    (scope_begin_end_var (glUseProgramAct 9) (glUseProgramAct 0) emptyBody baseCtx).log
      = (glUseProgramAct 9 baseCtx).2 ++ emptyBody.log ((glUseProgramAct 9 baseCtx).1)
        ++ (glUseProgramAct 0 (emptyBody.eff ((glUseProgramAct 9 baseCtx).1))).2
    ∧ (scope_begin_end_var (glUseProgramAct 9) (glUseProgramAct 0) emptyBody baseCtx).ctx
      = (glUseProgramAct 0 (emptyBody.eff ((glUseProgramAct 9 baseCtx).1))).1
    ∧ (scope_begin_end_var (glUseProgramAct 9) (glUseProgramAct 0) emptyBody baseCtx).out
      = COutcome.normal :=
  scope_exit_once_on_normal_or_continue (glUseProgramAct 9) (glUseProgramAct 0)
    emptyBody baseCtx (Or.inl rfl)

/-! ## Claim C5: uniqueness of the generated transient names -/

/-- C5, counterexample.  The claim states two scope macros of the same
kind placed on the same source line never have colliding transient names.
`UQ(name)` pastes the base name with `__LINE__` only, so two same-kind
macros on one line generate the identical identifier: two program scopes
on line 42 both name their transient `prog42`.  (The header itself notes
the resulting shadowing in its improvement list, line 31.) -/
theorem same_line_transients_collide :
    UQ "prog" 42 = "prog42" ∧ UQ "prog" 42 = UQ "prog" 42 :=
  ⟨by decide, rfl⟩

/-- C5, amended.  Transient names are unique exactly per source line: for
a fixed base name, two invocations generate the same transient name if
and only if they sit on the same source line.  Different lines never
collide; same-line same-kind invocations always do (C handles the
collision by inner-scope shadowing). -/
theorem transient_names_unique_iff_distinct_lines (base : String) (l1 l2 : Nat) :
    UQ base l1 = UQ base l2 ↔ l1 = l2 := by
  constructor
  · intro h
    unfold UQ at h
    obtain ⟨bd⟩ := base
    have hd : bd ++ lineChars l1 = bd ++ lineChars l2 := congrArg String.data h
    exact lineChars_inj (List.append_cancel_left hd)
  · intro h
    rw [h]

/-! ## Claim C6: the texture target-to-binding lookup table -/

/-- C6.  The lookup maps each of the eleven recognized texture targets to
its binding-point enum, and every other input to the sentinel 0 (the
`default` case) rather than raising an error. -/
theorem texture_target_binding_lookup_spec :
    _scope_gl_map_texture_target_to_binding GL_TEXTURE_1D = GL_TEXTURE_BINDING_1D
    ∧ _scope_gl_map_texture_target_to_binding GL_TEXTURE_2D = GL_TEXTURE_BINDING_2D
    ∧ _scope_gl_map_texture_target_to_binding GL_TEXTURE_3D = GL_TEXTURE_BINDING_3D
    ∧ _scope_gl_map_texture_target_to_binding GL_TEXTURE_1D_ARRAY = GL_TEXTURE_BINDING_1D_ARRAY
    ∧ _scope_gl_map_texture_target_to_binding GL_TEXTURE_2D_ARRAY = GL_TEXTURE_BINDING_2D_ARRAY
    ∧ _scope_gl_map_texture_target_to_binding GL_TEXTURE_RECTANGLE = GL_TEXTURE_BINDING_RECTANGLE
    ∧ _scope_gl_map_texture_target_to_binding GL_TEXTURE_CUBE_MAP = GL_TEXTURE_BINDING_CUBE_MAP
    ∧ _scope_gl_map_texture_target_to_binding GL_TEXTURE_CUBE_MAP_ARRAY
        = GL_TEXTURE_BINDING_CUBE_MAP_ARRAY
    ∧ _scope_gl_map_texture_target_to_binding GL_TEXTURE_BUFFER = GL_TEXTURE_BINDING_BUFFER
    ∧ _scope_gl_map_texture_target_to_binding GL_TEXTURE_2D_MULTISAMPLE
        = GL_TEXTURE_BINDING_2D_MULTISAMPLE
    ∧ _scope_gl_map_texture_target_to_binding GL_TEXTURE_2D_MULTISAMPLE_ARRAY
        = GL_TEXTURE_BINDING_2D_MULTISAMPLE_ARRAY
    ∧ ∀ t : Nat, t ∉ [GL_TEXTURE_1D, GL_TEXTURE_2D, GL_TEXTURE_3D, GL_TEXTURE_1D_ARRAY,
        GL_TEXTURE_2D_ARRAY, GL_TEXTURE_RECTANGLE, GL_TEXTURE_CUBE_MAP,
        GL_TEXTURE_CUBE_MAP_ARRAY, GL_TEXTURE_BUFFER, GL_TEXTURE_2D_MULTISAMPLE,
        GL_TEXTURE_2D_MULTISAMPLE_ARRAY] →
        _scope_gl_map_texture_target_to_binding t = 0 := by
  refine ⟨rfl, rfl, rfl, rfl, rfl, rfl, rfl, rfl, rfl, rfl, rfl, ?_⟩
  intro t ht
  simp only [List.mem_cons, List.not_mem_nil, or_false, not_or] at ht
  obtain ⟨h1, h2, h3, h4, h5, h6, h7, h8, h9, h10, h11⟩ := ht
  simp [_scope_gl_map_texture_target_to_binding, h1, h2, h3, h4, h5, h6, h7, h8, h9, h10, h11]

/-- C6, witness: the unknown target 7 falls to the sentinel 0. -/
theorem texture_target_binding_lookup_spec_witness :
    _scope_gl_map_texture_target_to_binding 7 = 0 :=
  texture_target_binding_lookup_spec.2.2.2.2.2.2.2.2.2.2.2 7 (by decide)

/-! ## Claim C2: RESTORE mode restores the initial value -/

/-- A context whose color attachment 0 of the draw framebuffer holds
texture 5. -/
def fbCtx : GLCtx :=
  { baseCtx with att := fun p =>
      if p = (GL_FRAMEBUFFER, GL_COLOR_ATTACHMENT0) then (GL_TEXTURE_2D, 5, 0)
      else (0, 0, 0) }

/-- C2, counterexample.  The claim asserts every state-slot binding in
RESTORE mode brings the slot back to V0.  `_restore_glFramebufferTexture`
performs no query and its exit action attaches texture 0: starting with
texture 5 attached, after `open(texture=7){ }` the attachment holds
(GL_TEXTURE_2D, 0, 0), not the initial (GL_TEXTURE_2D, 5, 0). -/
theorem restore_framebufferTexture_not_restored :
    (_restore_glFramebufferTexture GL_FRAMEBUFFER GL_COLOR_ATTACHMENT0 GL_TEXTURE_2D 7 0
        emptyBody fbCtx).ctx.att (GL_FRAMEBUFFER, GL_COLOR_ATTACHMENT0)
      = (GL_TEXTURE_2D, 0, 0)
    ∧ fbCtx.att (GL_FRAMEBUFFER, GL_COLOR_ATTACHMENT0) = (GL_TEXTURE_2D, 5, 0)
    ∧ ((GL_TEXTURE_2D, 0, 0) : Nat × Nat × Nat) ≠ (GL_TEXTURE_2D, 5, 0) :=
  ⟨by decide, by decide, by decide⟩

/-- C2, amended.  Every state-slot binding whose RESTORE form actually
queries the previous value (active program, texture binding, capability
flags, viewport, blend function, and the SSBO generic binding among the
bindings embedded here) brings the slot back to its initial value V0 on
normal completion, for every initial value, every new value and every
body — including bodies that mutate the same slot through direct unscoped
calls.  The framebuffer-attachment and renderbuffer bindings instead
unbind to 0 (a limitation the header documents), and the generic
`_restore_glBindBuffer` macro is ill-formed C (it references the
undeclared identifiers `vbo` and `old_vbo`), so neither restores V0. -/
theorem restore_mode_restores_initial_value :
    (∀ (c : GLCtx) (id : Nat) (b : Body), (∀ cc, b.out cc = COutcome.normal) →
      (_restore_glUseProgram id b c).ctx.prog = c.prog)
    ∧ (∀ (c : GLCtx) (target texture : Nat) (b : Body), (∀ cc, b.out cc = COutcome.normal) →
      (_restore_glBindTexture target texture b c).ctx.tex
          (_scope_gl_map_texture_target_to_binding target)
        = c.tex (_scope_gl_map_texture_target_to_binding target))
    ∧ (∀ (c : GLCtx) (e : Nat) (b : Body), (∀ cc, b.out cc = COutcome.normal) →
      (_restore_glEnable e b c).ctx.cap e = c.cap e)
    ∧ (∀ (c : GLCtx) (e : Nat) (b : Body), (∀ cc, b.out cc = COutcome.normal) →
      (_restore_glDisable e b c).ctx.cap e = c.cap e)
    ∧ (∀ (c : GLCtx) (x y w h : Int) (b : Body), (∀ cc, b.out cc = COutcome.normal) →
      (_restore_glViewport x y w h b c).ctx.viewport = c.viewport)
    ∧ (∀ (c : GLCtx) (s d : Nat) (b : Body), (∀ cc, b.out cc = COutcome.normal) →
      (_restore_glBlendFunc s d b c).ctx.blendSrc = c.blendSrc
      ∧ (_restore_glBlendFunc s d b c).ctx.blendDst = c.blendDst)
    ∧ (∀ (c : GLCtx) (v i : Nat) (b : Body), (∀ cc, b.out cc = COutcome.normal) →
      (_restore_glBindSSBO v i b c).ctx.buf GL_SHADER_STORAGE_BUFFER
        = c.buf GL_SHADER_STORAGE_BUFFER) := by
  refine ⟨?_, ?_, ?_, ?_, ?_, ?_, ?_⟩
  · intro c id b hb
    unfold _restore_glUseProgram runScope
    simp [hb, glUseProgramAct]
  · intro c target texture b hb
    unfold _restore_glBindTexture runScope
    simp [hb, glBindTextureAct]
  · intro c e b hb
    unfold _restore_glEnable runScope
    cases hc : c.cap e <;> simp [hb, hc, glEnableAct, glDisableAct]
  · intro c e b hb
    unfold _restore_glDisable runScope
    cases hc : c.cap e <;> simp [hb, hc, glEnableAct, glDisableAct]
  · intro c x y w h b hb
    unfold _restore_glViewport runScope
    simp [hb, glViewportAct]
  · intro c s d b hb
    unfold _restore_glBlendFunc runScope
    constructor <;> simp [hb, glBlendFuncAct]
  · intro c v i b hb
    unfold _restore_glBindSSBO runScope
    simp [hb, Act.seq, glBindBufferAct, glBindBufferBaseAct]

/-- C2, witness: the program scope around a body that itself switches the
program to 77 still restores program 3, and the blend-capability scope
around a body that disables BLEND restores the initial enabled flag. -/
theorem restore_mode_restores_initial_value_witness :
    (∀ cc, (actBody (glUseProgramAct 77)).out cc = COutcome.normal)
    ∧ (_restore_glUseProgram 9 (actBody (glUseProgramAct 77))
        { baseCtx with prog := 3 }).ctx.prog = 3
    ∧ (∀ cc, (actBody (glDisableAct GL_BLEND)).out cc = COutcome.normal)
    ∧ (_restore_glEnable GL_BLEND (actBody (glDisableAct GL_BLEND))
        { baseCtx with cap := fun x => x = GL_BLEND }).ctx.cap GL_BLEND = true :=
  ⟨fun _ => rfl,
   restore_mode_restores_initial_value.1 { baseCtx with prog := 3 } 9
     (actBody (glUseProgramAct 77)) (fun _ => rfl),
   fun _ => rfl,
   restore_mode_restores_initial_value.2.2.1 { baseCtx with cap := fun x => x = GL_BLEND }
     GL_BLEND (actBody (glDisableAct GL_BLEND)) (fun _ => rfl)⟩

/-! ## Claim C3: RESET mode forces the fixed exit value -/

/-- C3, counterexample.  The claim asserts the slot after a RESET-mode
scope never equals its initial value V0 and always equals a neutral value
among unbound/disabled/zero.  Both parts fail: with V0 = 0 the program
slot equals V0 after `_unset_glUseProgram(9)`, and `_unset_glDisable`
exits by calling glEnable, leaving the flag enabled — not disabled or
zero. -/
theorem reset_mode_can_equal_initial_value :
    (_unset_glUseProgram 9 emptyBody baseCtx).ctx.prog = baseCtx.prog
    ∧ (_unset_glDisable GL_BLEND emptyBody baseCtx).ctx.cap GL_BLEND = true
    ∧ baseCtx.cap GL_BLEND = false :=
  ⟨rfl, by decide, rfl⟩

/-- C3, amended.  Every RESET-mode binding forces its own fixed,
history-independent exit value on normal completion, for every initial
value V0 and every body: 0 for the program, texture and viewport slots,
disabled for the enable scope, and enabled (the documented opposite
state, not a disabled/zero neutral) for the disable scope.  The slot
therefore differs from V0 exactly when V0 differs from that fixed value;
in particular with active program 3, after `open(program=9){ }` the
active program is 0. -/
theorem reset_mode_forces_fixed_exit_value :
    (∀ (c : GLCtx) (id : Nat) (b : Body), (∀ cc, b.out cc = COutcome.normal) →
      (_unset_glUseProgram id b c).ctx.prog = 0)
    ∧ (∀ (c : GLCtx) (target texture : Nat) (b : Body), (∀ cc, b.out cc = COutcome.normal) →
      (_unset_glBindTexture target texture b c).ctx.tex
          (_scope_gl_map_texture_target_to_binding target) = 0)
    ∧ (∀ (c : GLCtx) (e : Nat) (b : Body), (∀ cc, b.out cc = COutcome.normal) →
      (_unset_glEnable e b c).ctx.cap e = false)
    ∧ (∀ (c : GLCtx) (e : Nat) (b : Body), (∀ cc, b.out cc = COutcome.normal) →
      (_unset_glDisable e b c).ctx.cap e = true)
    ∧ (∀ (c : GLCtx) (x y w h : Int) (b : Body), (∀ cc, b.out cc = COutcome.normal) →
      (_unset_glViewport x y w h b c).ctx.viewport = (0, 0, 0, 0))
    ∧ (_unset_glUseProgram 9 emptyBody { baseCtx with prog := 3 }).ctx.prog = 0 := by
  refine ⟨?_, ?_, ?_, ?_, ?_, rfl⟩
  · intro c id b hb
    unfold _unset_glUseProgram scope_begin_end_var runScope
    simp [hb, glUseProgramAct]
  · intro c target texture b hb
    unfold _unset_glBindTexture scope_begin_end_var runScope
    simp [hb, glBindTextureAct]
  · intro c e b hb
    unfold _unset_glEnable scope_begin_end_var runScope
    simp [hb, glEnableAct, glDisableAct]
  · intro c e b hb
    unfold _unset_glDisable scope_begin_end_var runScope
    simp [hb, glEnableAct, glDisableAct]
  · intro c x y w h b hb
    unfold _unset_glViewport scope_begin_end_var runScope
    simp [hb, glViewportAct]

/-- C3, witness: the RESET program scope forces 0 even around a body that
sets program 55. -/
theorem reset_mode_forces_fixed_exit_value_witness :
    (∀ cc, (actBody (glUseProgramAct 55)).out cc = COutcome.normal)
    ∧ (_unset_glUseProgram 9 (actBody (glUseProgramAct 55))
        { baseCtx with prog := 3 }).ctx.prog = 0 :=
  ⟨fun _ => rfl,
   reset_mode_forces_fixed_exit_value.1 { baseCtx with prog := 3 } 9
     (actBody (glUseProgramAct 55)) (fun _ => rfl)⟩

/-! ## Claim C8: the viewport scope -/

/-- C8.  The viewport scope queries all four components with one
glGetIntegerv(GL_VIEWPORT) call on entry (one atomic event in the trace),
and on normal completion restores exactly the four captured components;
the RESET variant writes the all-zero rectangle.  Concretely, with
initial viewport (0,0,800,600) and `open(viewport=(10,10,100,100)){ }`,
the viewport is (0,0,800,600) in all four components after exit. -/
theorem viewport_scope_atomic_capture_restore :
    (∀ (c : GLCtx) (x y w h : Int) (b : Body), (∀ cc, b.out cc = COutcome.normal) →
      (_restore_glViewport x y w h b c).log
        = GLEvent.getInteger GL_VIEWPORT :: GLEvent.viewportSet x y w h ::
            (b.log ((glViewportAct x y w h c).1)
              ++ [GLEvent.viewportSet c.viewport.1 c.viewport.2.1
                    c.viewport.2.2.1 c.viewport.2.2.2])
      ∧ (_restore_glViewport x y w h b c).ctx.viewport = c.viewport)
    ∧ (∀ (c : GLCtx) (x y w h : Int) (b : Body), (∀ cc, b.out cc = COutcome.normal) →
      (_unset_glViewport x y w h b c).ctx.viewport = (0, 0, 0, 0))
    ∧ (_restore_glViewport 10 10 100 100 emptyBody
        { baseCtx with viewport := (0, 0, 800, 600) }).ctx.viewport = (0, 0, 800, 600) := by
  refine ⟨?_, ?_, rfl⟩
  · intro c x y w h b hb
    unfold _restore_glViewport runScope
    constructor <;> simp [hb, glViewportAct]
  · intro c x y w h b hb
    unfold _unset_glViewport scope_begin_end_var runScope
    simp [hb, glViewportAct]

/-- C8, witness: the general restore conjunct at the concrete scenario,
with a body that itself moves the viewport to (1,2,3,4). -/
theorem viewport_scope_atomic_capture_restore_witness :
    (∀ cc, (actBody (glViewportAct 1 2 3 4)).out cc = COutcome.normal)
    ∧ (_restore_glViewport 10 10 100 100 (actBody (glViewportAct 1 2 3 4))
        { baseCtx with viewport := (0, 0, 800, 600) }).ctx.viewport = (0, 0, 800, 600) :=
  ⟨fun _ => rfl,
   ((viewport_scope_atomic_capture_restore.1 { baseCtx with viewport := (0, 0, 800, 600) }
      10 10 100 100 (actBody (glViewportAct 1 2 3 4)) (fun _ => rfl)).2)⟩

/-! ## Claim C4: nesting order of scope exits -/

/-- C4.  Two texture scopes opened in sequence around the same inner
block, on targets whose binding points differ: the trace shows A's enter,
then B's enter, then the body events, then B's exit strictly before A's
exit; each scope restores its own independently captured old value, so
both slots return to their initial values. -/
theorem nested_scopes_exit_in_reverse_order
    (tA tB xT yT : Nat) (b : Body) (c : GLCtx)
    (hne : _scope_gl_map_texture_target_to_binding tA
      ≠ _scope_gl_map_texture_target_to_binding tB)
    (hb : ∀ cc, b.out cc = COutcome.normal) :
    (_restore_glBindTexture tA xT (Body.ofRun (_restore_glBindTexture tB yT b)) c).log
      = GLEvent.getInteger (_scope_gl_map_texture_target_to_binding tA) ::
          GLEvent.bindTexture tA xT ::
            GLEvent.getInteger (_scope_gl_map_texture_target_to_binding tB) ::
              GLEvent.bindTexture tB yT ::
                (b.log ((glBindTextureAct tB yT ((glBindTextureAct tA xT c).1)).1)
                  ++ [GLEvent.bindTexture tB
                        (c.tex (_scope_gl_map_texture_target_to_binding tB)),
                      GLEvent.bindTexture tA
                        (c.tex (_scope_gl_map_texture_target_to_binding tA))])
    ∧ (_restore_glBindTexture tA xT (Body.ofRun (_restore_glBindTexture tB yT b)) c).ctx.tex
        (_scope_gl_map_texture_target_to_binding tA)
      = c.tex (_scope_gl_map_texture_target_to_binding tA)
    ∧ (_restore_glBindTexture tA xT (Body.ofRun (_restore_glBindTexture tB yT b)) c).ctx.tex
        (_scope_gl_map_texture_target_to_binding tB)
      = c.tex (_scope_gl_map_texture_target_to_binding tB) := by
  unfold Body.ofRun _restore_glBindTexture runScope
  refine ⟨?_, ?_, ?_⟩ <;>
    simp [hb, glBindTextureAct, hne, Ne.symm hne]

/-- C4, witness: targets 2D and 3D (binding points 0x8069 and 0x806A),
new textures 1 and 2, empty body, all slots initially 0. -/
theorem nested_scopes_exit_in_reverse_order_witness :
    (_scope_gl_map_texture_target_to_binding GL_TEXTURE_2D
      ≠ _scope_gl_map_texture_target_to_binding GL_TEXTURE_3D)
    ∧ ((_restore_glBindTexture GL_TEXTURE_2D 1
          (Body.ofRun (_restore_glBindTexture GL_TEXTURE_3D 2 emptyBody)) baseCtx).log
        = GLEvent.getInteger (_scope_gl_map_texture_target_to_binding GL_TEXTURE_2D) ::
            GLEvent.bindTexture GL_TEXTURE_2D 1 ::
              GLEvent.getInteger (_scope_gl_map_texture_target_to_binding GL_TEXTURE_3D) ::
                GLEvent.bindTexture GL_TEXTURE_3D 2 ::
                  (emptyBody.log ((glBindTextureAct GL_TEXTURE_3D 2
                      ((glBindTextureAct GL_TEXTURE_2D 1 baseCtx).1)).1)
                    ++ [GLEvent.bindTexture GL_TEXTURE_3D
                          (baseCtx.tex (_scope_gl_map_texture_target_to_binding GL_TEXTURE_3D)),
                        GLEvent.bindTexture GL_TEXTURE_2D
                          (baseCtx.tex (_scope_gl_map_texture_target_to_binding GL_TEXTURE_2D))])
      ∧ (_restore_glBindTexture GL_TEXTURE_2D 1
          (Body.ofRun (_restore_glBindTexture GL_TEXTURE_3D 2 emptyBody)) baseCtx).ctx.tex
            (_scope_gl_map_texture_target_to_binding GL_TEXTURE_2D)
        = baseCtx.tex (_scope_gl_map_texture_target_to_binding GL_TEXTURE_2D)
      ∧ (_restore_glBindTexture GL_TEXTURE_2D 1
          (Body.ofRun (_restore_glBindTexture GL_TEXTURE_3D 2 emptyBody)) baseCtx).ctx.tex
            (_scope_gl_map_texture_target_to_binding GL_TEXTURE_3D)
        = baseCtx.tex (_scope_gl_map_texture_target_to_binding GL_TEXTURE_3D)) :=
  ⟨by decide,
   nested_scopes_exit_in_reverse_order GL_TEXTURE_2D GL_TEXTURE_3D 1 2 emptyBody baseCtx
     (by decide) (fun _ => rfl)⟩

/-! ## Claim C9: the SSBO scope queries only the generic binding -/

/-- C9.  In RESTORE mode the SSBO scope's only query is of the generic
GL_SHADER_STORAGE_BUFFER_BINDING slot (the trace contains exactly that
one query event); on exit it writes the captured generic value first to
the indexed binding point and then to the generic target.  The indexed
point's own previous value is never read, so after normal completion the
indexed binding point holds the pre-entry generic binding value, whatever
it held before. -/
theorem ssbo_restore_uses_generic_binding_only
    (c : GLCtx) (v i : Nat) (b : Body) (hb : ∀ cc, b.out cc = COutcome.normal) :
    (_restore_glBindSSBO v i b c).log
      = GLEvent.getInteger GL_SHADER_STORAGE_BUFFER_BINDING ::
          GLEvent.bindBuffer GL_SHADER_STORAGE_BUFFER v ::
            GLEvent.bindBufferBase GL_SHADER_STORAGE_BUFFER i v ::
              (b.log (((Act.seq (glBindBufferAct GL_SHADER_STORAGE_BUFFER v)
                  (glBindBufferBaseAct GL_SHADER_STORAGE_BUFFER i v)) c).1)
                ++ [GLEvent.bindBufferBase GL_SHADER_STORAGE_BUFFER i
                      (c.buf GL_SHADER_STORAGE_BUFFER),
                    GLEvent.bindBuffer GL_SHADER_STORAGE_BUFFER
                      (c.buf GL_SHADER_STORAGE_BUFFER)])
    ∧ (_restore_glBindSSBO v i b c).ctx.idxBuf (GL_SHADER_STORAGE_BUFFER, i)
      = c.buf GL_SHADER_STORAGE_BUFFER
    ∧ (_restore_glBindSSBO v i b c).ctx.buf GL_SHADER_STORAGE_BUFFER
      = c.buf GL_SHADER_STORAGE_BUFFER := by
  unfold _restore_glBindSSBO runScope
  refine ⟨?_, ?_, ?_⟩ <;>
    simp [hb, Act.seq, glBindBufferAct, glBindBufferBaseAct]

/-- C9, witness: generic binding initially 11, indexed point 2 initially
55; after `scope_glBindSSBO(7, 2)` with an empty body, indexed point 2
holds 11 (the pre-entry generic value), not 55. -/
theorem ssbo_restore_uses_generic_binding_only_witness :
    (∀ cc, emptyBody.out cc = COutcome.normal)
    ∧ (_restore_glBindSSBO 7 2 emptyBody
        { baseCtx with
            buf := fun t => if t = GL_SHADER_STORAGE_BUFFER then 11 else 0,
            idxBuf := fun p => if p = (GL_SHADER_STORAGE_BUFFER, 2) then 55 else 0 }).ctx.idxBuf
          (GL_SHADER_STORAGE_BUFFER, 2)
      = { baseCtx with
            buf := fun t => if t = GL_SHADER_STORAGE_BUFFER then 11 else 0,
            idxBuf := fun p => if p = (GL_SHADER_STORAGE_BUFFER, 2) then 55 else 0 : GLCtx}.buf
          GL_SHADER_STORAGE_BUFFER :=
  ⟨fun _ => rfl,
   (ssbo_restore_uses_generic_binding_only
      { baseCtx with
          buf := fun t => if t = GL_SHADER_STORAGE_BUFFER then 11 else 0,
          idxBuf := fun p => if p = (GL_SHADER_STORAGE_BUFFER, 2) then 55 else 0 }
      7 2 emptyBody (fun _ => rfl)).2.1⟩

/-! ## Claim C7: the uniform-value scopes -/

/-- A context with program 1 active, where the uniform location of any
name is 10 in program 1 and 20 in every other program. -/
def locCtx : GLCtx :=
  { baseCtx with prog := 1, loc := fun p _ => if p = 1 then 10 else 20 }

/-- C7, counterexample.  The claim says the uniform's location is looked
up against the currently active program on every exit.  The macro queries
GL_CURRENT_PROGRAM once, at entry, and the exit lookup uses that captured
program.  With program 1 active at entry and a body that switches to
program 2, the exit-time lookup event names program 1 — not the program 2
active at exit (whose location for the same name is 20, not 10) — and the
restore write lands in program 2's location 10 while program 1's uniform
keeps the new value 5 instead of being restored. -/
theorem uniform_exit_lookup_uses_entry_program :
    (scope_glUniformfv 5 "u" (actBody (glUseProgramAct 2)) locCtx).log
      = [GLEvent.getInteger GL_CURRENT_PROGRAM,
         GLEvent.getUniformLocation 1 "u", GLEvent.getUniformF 1 10,
         GLEvent.getUniformLocation 1 "u", GLEvent.uniform1f 10 5,
         GLEvent.useProgram 2,
         GLEvent.getUniformLocation 1 "u", GLEvent.uniform1f 10 0]
    ∧ (scope_glUniformfv 5 "u" (actBody (glUseProgramAct 2)) locCtx).ctx.prog = 2
    ∧ locCtx.loc 2 "u" = 20
    ∧ (scope_glUniformfv 5 "u" (actBody (glUseProgramAct 2)) locCtx).ctx.uniF 1 10 = 5
    ∧ (scope_glUniformfv 5 "u" (actBody (glUseProgramAct 2)) locCtx).ctx.uniF 2 10 = 0
    ∧ locCtx.uniF 1 10 = 0 :=
  ⟨by decide, by decide, by decide, by decide, by decide, by decide⟩

/-- C7, amended.  For both uniform scopes (mat4 and scalar float), the
location is looked up fresh from the name on entry (twice) and on exit
(once) — never cached — but every lookup is made against the program
captured by a single GL_CURRENT_PROGRAM query at entry.  When the body
preserves the active program and the uniform locations, that program is
also the one active at exit, the entry query reads back the uniform's
current value, and the exit write restores that old value to it. -/
theorem uniform_location_lookup_fresh_each_entry_and_exit
    (c : GLCtx) (v : Int) (m : List Int) (name : String) (b : Body)
    (hb : ∀ cc, b.out cc = COutcome.normal)
    (hp : ∀ cc, (b.eff cc).prog = cc.prog)
    (hl : ∀ cc, (b.eff cc).loc = cc.loc) :
    (scope_glUniformfv v name b c).log
      = GLEvent.getInteger GL_CURRENT_PROGRAM ::
          GLEvent.getUniformLocation c.prog name ::
            GLEvent.getUniformF c.prog (c.loc c.prog name) ::
              GLEvent.getUniformLocation c.prog name ::
                GLEvent.uniform1f (c.loc c.prog name) v ::
                  (b.log ((glUniform1fAct (c.loc c.prog name) v c).1)
                    ++ [GLEvent.getUniformLocation c.prog name,
                        GLEvent.uniform1f (c.loc c.prog name)
                          (c.uniF c.prog (c.loc c.prog name))])
    ∧ (scope_glUniformfv v name b c).ctx.uniF c.prog (c.loc c.prog name)
        = c.uniF c.prog (c.loc c.prog name)
    ∧ (scope_glUniformMatrix4fv m name b c).log
      = GLEvent.getInteger GL_CURRENT_PROGRAM ::
          GLEvent.getUniformLocation c.prog name ::
            GLEvent.getUniformM c.prog (c.loc c.prog name) ::
              GLEvent.getUniformLocation c.prog name ::
                GLEvent.uniformMat4 (c.loc c.prog name) m ::
                  (b.log ((glUniformMatrix4fvAct (c.loc c.prog name) m c).1)
                    ++ [GLEvent.getUniformLocation c.prog name,
                        GLEvent.uniformMat4 (c.loc c.prog name)
                          (c.uniM c.prog (c.loc c.prog name))])
    ∧ (scope_glUniformMatrix4fv m name b c).ctx.uniM c.prog (c.loc c.prog name)
        = c.uniM c.prog (c.loc c.prog name) := by
  refine ⟨?_, ?_, ?_, ?_⟩
  · unfold scope_glUniformfv runScope
    simp [hb, hp, hl, glUniform1fAct]
  · unfold scope_glUniformfv runScope
    simp [hb, hp, hl, glUniform1fAct]
  · unfold scope_glUniformMatrix4fv runScope
    simp [hb, hp, hl, glUniformMatrix4fvAct]
  · unfold scope_glUniformMatrix4fv runScope
    simp [hb, hp, hl, glUniformMatrix4fvAct]

/-- C7, witness: the scalar conjunct at locCtx with a body that only
toggles the BLEND flag (preserving program and locations); the uniform
read back at entry is restored at exit. -/
theorem uniform_location_lookup_fresh_each_entry_and_exit_witness :
    (∀ cc, (actBody (glEnableAct GL_BLEND)).out cc = COutcome.normal)
    ∧ (∀ cc, ((actBody (glEnableAct GL_BLEND)).eff cc).prog = cc.prog)
    ∧ (∀ cc, ((actBody (glEnableAct GL_BLEND)).eff cc).loc = cc.loc)
    ∧ (scope_glUniformfv 5 "u" (actBody (glEnableAct GL_BLEND)) locCtx).ctx.uniF
          locCtx.prog (locCtx.loc locCtx.prog "u")
        = locCtx.uniF locCtx.prog (locCtx.loc locCtx.prog "u") :=
  ⟨fun _ => rfl, fun _ => rfl, fun _ => rfl,
   (uniform_location_lookup_fresh_each_entry_and_exit locCtx 5 [] "u"
      (actBody (glEnableAct GL_BLEND)) (fun _ => rfl) (fun _ => rfl) (fun _ => rfl)).2.1⟩

/-! ## Claim C10: scopes touch only their own slot -/

/-- Projection of a context onto every slot other than the active
program. -/
def restProg (c : GLCtx) :=
  (c.tex, c.buf, c.idxBuf, c.cap, c.att, c.viewport, c.blendSrc, c.blendDst,
   c.uniF, c.uniM, c.loc)

/-- Projection of a context onto every slot other than capability flag
`e` (the flag's own value is normalized away). -/
def restCap (e : Nat) (c : GLCtx) :=
  (c.prog, c.tex, c.buf, c.idxBuf, Function.update c.cap e false, c.att,
   c.viewport, c.blendSrc, c.blendDst, c.uniF, c.uniM, c.loc)

/-- Projection of a context onto every slot other than the generic
shader-storage binding and the indexed shader-storage binding point `i`. -/
def restSSBO (i : Nat) (c : GLCtx) :=
  (c.prog, c.tex, Function.update c.buf GL_SHADER_STORAGE_BUFFER 0,
   Function.update c.idxBuf (GL_SHADER_STORAGE_BUFFER, i) 0, c.cap, c.att,
   c.viewport, c.blendSrc, c.blendDst, c.uniF, c.uniM, c.loc)

theorem update_if_eq {α β : Type} [DecidableEq α] (f : α → β) (a : α) (v z : β) :
    Function.update (fun x => if x = a then v else f x) a z = Function.update f a z := by
  funext x
  by_cases hx : x = a <;> simp [Function.update, hx]

theorem restProg_glUseProgramAct (id : Nat) (c : GLCtx) :
    restProg ((glUseProgramAct id c).1) = restProg c := rfl

theorem restCap_glEnableAct (e : Nat) (c : GLCtx) :
    restCap e ((glEnableAct e c).1) = restCap e c := by
  show (c.prog, c.tex, c.buf, c.idxBuf,
      Function.update (fun x => if x = e then true else c.cap x) e false, c.att,
      c.viewport, c.blendSrc, c.blendDst, c.uniF, c.uniM, c.loc)
    = (c.prog, c.tex, c.buf, c.idxBuf, Function.update c.cap e false, c.att,
      c.viewport, c.blendSrc, c.blendDst, c.uniF, c.uniM, c.loc)
  rw [update_if_eq]

theorem restCap_glDisableAct (e : Nat) (c : GLCtx) :
    restCap e ((glDisableAct e c).1) = restCap e c := by
  show (c.prog, c.tex, c.buf, c.idxBuf,
      Function.update (fun x => if x = e then false else c.cap x) e false, c.att,
      c.viewport, c.blendSrc, c.blendDst, c.uniF, c.uniM, c.loc)
    = (c.prog, c.tex, c.buf, c.idxBuf, Function.update c.cap e false, c.att,
      c.viewport, c.blendSrc, c.blendDst, c.uniF, c.uniM, c.loc)
  rw [update_if_eq]

theorem restSSBO_glBindBufferAct (i bufv : Nat) (c : GLCtx) :
    restSSBO i ((glBindBufferAct GL_SHADER_STORAGE_BUFFER bufv c).1) = restSSBO i c := by
  show (c.prog, c.tex,
      Function.update (fun t => if t = GL_SHADER_STORAGE_BUFFER then bufv else c.buf t)
        GL_SHADER_STORAGE_BUFFER 0,
      Function.update c.idxBuf (GL_SHADER_STORAGE_BUFFER, i) 0, c.cap, c.att,
      c.viewport, c.blendSrc, c.blendDst, c.uniF, c.uniM, c.loc)
    = (c.prog, c.tex, Function.update c.buf GL_SHADER_STORAGE_BUFFER 0,
      Function.update c.idxBuf (GL_SHADER_STORAGE_BUFFER, i) 0, c.cap, c.att,
      c.viewport, c.blendSrc, c.blendDst, c.uniF, c.uniM, c.loc)
  rw [update_if_eq]

theorem restSSBO_glBindBufferBaseAct (i bufv : Nat) (c : GLCtx) :
    restSSBO i ((glBindBufferBaseAct GL_SHADER_STORAGE_BUFFER i bufv c).1) = restSSBO i c := by
  show (c.prog, c.tex,
      Function.update (fun t => if t = GL_SHADER_STORAGE_BUFFER then bufv else c.buf t)
        GL_SHADER_STORAGE_BUFFER 0,
      Function.update
        (fun p => if p = (GL_SHADER_STORAGE_BUFFER, i) then bufv else c.idxBuf p)
        (GL_SHADER_STORAGE_BUFFER, i) 0, c.cap, c.att,
      c.viewport, c.blendSrc, c.blendDst, c.uniF, c.uniM, c.loc)
    = (c.prog, c.tex, Function.update c.buf GL_SHADER_STORAGE_BUFFER 0,
      Function.update c.idxBuf (GL_SHADER_STORAGE_BUFFER, i) 0, c.cap, c.att,
      c.viewport, c.blendSrc, c.blendDst, c.uniF, c.uniM, c.loc)
  rw [update_if_eq, update_if_eq]

/-- C10.  The enter and exit actions of a scoped binding call the context
only on the slot (for the SSBO binding, the two slots) named by the
macro's arguments: for the program scopes (both modes), the capability
scopes (both modes) and the SSBO restore scope, every other context slot
holds the same value after the scope exits — through any exit path — as
it held at entry, provided the body itself preserves it. -/
theorem scopes_touch_only_their_own_slot :
    (∀ (id : Nat) (b : Body) (c : GLCtx),
      (∀ cc, restProg (b.eff cc) = restProg cc) →
      restProg ((_restore_glUseProgram id b c).ctx) = restProg c)
    ∧ (∀ (id : Nat) (b : Body) (c : GLCtx),
      (∀ cc, restProg (b.eff cc) = restProg cc) →
      restProg ((_unset_glUseProgram id b c).ctx) = restProg c)
    ∧ (∀ (e : Nat) (b : Body) (c : GLCtx),
      (∀ cc, restCap e (b.eff cc) = restCap e cc) →
      restCap e ((_restore_glEnable e b c).ctx) = restCap e c)
    ∧ (∀ (e : Nat) (b : Body) (c : GLCtx),
      (∀ cc, restCap e (b.eff cc) = restCap e cc) →
      restCap e ((_unset_glEnable e b c).ctx) = restCap e c)
    ∧ (∀ (v i : Nat) (b : Body) (c : GLCtx),
      (∀ cc, restSSBO i (b.eff cc) = restSSBO i cc) →
      restSSBO i ((_restore_glBindSSBO v i b c).ctx) = restSSBO i c) := by
  refine ⟨?_, ?_, ?_, ?_, ?_⟩
  · intro id b c hbody
    unfold _restore_glUseProgram runScope
    dsimp only
    split <;> simp [restProg_glUseProgramAct, hbody]
  · intro id b c hbody
    unfold _unset_glUseProgram scope_begin_end_var runScope
    dsimp only
    split <;> simp [restProg_glUseProgramAct, hbody]
  · intro e b c hbody
    unfold _restore_glEnable runScope
    dsimp only
    cases hc : c.cap e <;> split <;>
      simp [restCap_glEnableAct, restCap_glDisableAct, hbody]
  · intro e b c hbody
    unfold _unset_glEnable scope_begin_end_var runScope
    dsimp only
    split <;> simp [restCap_glEnableAct, restCap_glDisableAct, hbody]
  · intro v i b c hbody
    unfold _restore_glBindSSBO runScope Act.seq
    dsimp only
    split <;>
      simp [restSSBO_glBindBufferAct, restSSBO_glBindBufferBaseAct, hbody]

/-- C10, witness: the restore program scope around the empty body leaves
every non-program slot of the base context unchanged. -/
theorem scopes_touch_only_their_own_slot_witness :
    restProg ((_restore_glUseProgram 9 emptyBody baseCtx).ctx) = restProg baseCtx :=
  scopes_touch_only_their_own_slot.1 9 emptyBody baseCtx (fun _ => rfl)
